import Mathlib

/-!
Verification of the Kostal battery SCRAM authentication core.

This file embeds the SCRAM-SHA256 handshake helpers of
`src/logic/kostalApi/scramAuth.ts` and the session-lifecycle manager of
`src/logic/kostalApi/sessionManager.ts` as executable Lean definitions and
proves the specified properties about them.

Bytes are modelled as natural numbers below 256 (`List Nat` for buffers);
32-bit words are naturals reduced modulo 2 ^ 32 at every arithmetic step.
The Node `crypto` primitives used by the source (SHA-256, HMAC-SHA256,
PBKDF2-HMAC-SHA256, base64 codec) are given full executable definitions
following FIPS 180-4, FIPS 198-1 and RFC 8018.
-/

/-! ## 32-bit word arithmetic -/

/-- Addition modulo 2 ^ 32. -/
def add32 (a b : Nat) : Nat := (a + b) % 4294967296

/-- Right rotation of a 32-bit word by `n` places. -/
def rotr32 (x n : Nat) : Nat := (x / 2 ^ n + x % 2 ^ n * 2 ^ (32 - n)) % 4294967296

/-- Logical right shift of a 32-bit word. -/
def shr32 (x n : Nat) : Nat := x / 2 ^ n

/-- Bitwise complement of a 32-bit word. -/
def not32 (x : Nat) : Nat := Nat.xor x 4294967295

/-- SHA-256 choice function `Ch`. -/
def chF (x y z : Nat) : Nat := Nat.xor (Nat.land x y) (Nat.land (not32 x) z)

/-- SHA-256 majority function `Maj`. -/
def majF (x y z : Nat) : Nat :=
  Nat.xor (Nat.xor (Nat.land x y) (Nat.land x z)) (Nat.land y z)

/-- SHA-256 big sigma 0. -/
def bsig0 (x : Nat) : Nat := Nat.xor (Nat.xor (rotr32 x 2) (rotr32 x 13)) (rotr32 x 22)

/-- SHA-256 big sigma 1. -/
def bsig1 (x : Nat) : Nat := Nat.xor (Nat.xor (rotr32 x 6) (rotr32 x 11)) (rotr32 x 25)

/-- SHA-256 small sigma 0. -/
def ssig0 (x : Nat) : Nat := Nat.xor (Nat.xor (rotr32 x 7) (rotr32 x 18)) (shr32 x 3)

/-- SHA-256 small sigma 1. -/
def ssig1 (x : Nat) : Nat := Nat.xor (Nat.xor (rotr32 x 17) (rotr32 x 19)) (shr32 x 10)

/-! ## SHA-256 (FIPS 180-4) -/

/-- The 64 SHA-256 round constants. -/
def shaK : List Nat :=
  [1116352408, 1899447441, 3049323471, 3921009573,
   961987163, 1508970993, 2453635748, 2870763221,
   3624381080, 310598401, 607225278, 1426881987,
   1925078388, 2162078206, 2614888103, 3248222580,
   3835390401, 4022224774, 264347078, 604807628,
   770255983, 1249150122, 1555081692, 1996064986,
   2554220882, 2821834349, 2952996808, 3210313671,
   3336571891, 3584528711, 113926993, 338241895,
   666307205, 773529912, 1294757372, 1396182291,
   1695183700, 1986661051, 2177026350, 2456956037,
   2730485921, 2820302411, 3259730800, 3345764771,
   3516065817, 3600352804, 4094571909, 275423344,
   430227734, 506948616, 659060556, 883997877,
   958139571, 1322822218, 1537002063, 1747873779,
   1955562222, 2024104815, 2227730452, 2361852424,
   2428436474, 2756734187, 3204031479, 3329325298]

/-- The eight SHA-256 initial hash values. -/
def shaH0 : List Nat :=
  [1779033703, 3144134277, 1013904242, 2773480762,
   1359893119, 2600822924, 528734635, 1541459225]

/-- Big-endian serialization of `n` into `k` bytes (most significant first). -/
def beBytes : Nat → Nat → List Nat
  | 0, _ => []
  | k + 1, n => beBytes k (n / 256) ++ [n % 256]

/-- Group a byte list into big-endian 32-bit words, four bytes at a time. -/
def bytesToWords : List Nat → List Nat
  | a :: b :: c :: d :: rest => (((a * 256 + b) * 256 + c) * 256 + d) :: bytesToWords rest
  | _ => []

/-- Extend the 16 block words to the 64-entry SHA-256 message schedule. -/
def extendSchedule (w : Array Nat) : Array Nat :=
  (List.range 48).foldl
    (fun arr i =>
      let t := i + 16
      arr.push (add32 (add32 (ssig1 (arr.getD (t - 2) 0)) (arr.getD (t - 7) 0))
        (add32 (ssig0 (arr.getD (t - 15) 0)) (arr.getD (t - 16) 0))))
    w

/-- One SHA-256 round on the eight-word working state. -/
def shaRound (w : Array Nat)
    (st : Nat × Nat × Nat × Nat × Nat × Nat × Nat × Nat) (t : Nat) :
    Nat × Nat × Nat × Nat × Nat × Nat × Nat × Nat :=
  let (a, b, c, d, e, f, g, h) := st
  let t1 := add32 h (add32 (bsig1 e) (add32 (chF e f g) (add32 (shaK.getD t 0) (w.getD t 0))))
  let t2 := add32 (bsig0 a) (majF a b c)
  (add32 t1 t2, a, b, c, add32 d t1, e, f, g)

/-- SHA-256 compression of one 64-byte block into the eight-word state. -/
def compress (st : List Nat) (block : List Nat) : List Nat :=
  let w := extendSchedule (bytesToWords block).toArray
  let init := (st.getD 0 0, st.getD 1 0, st.getD 2 0, st.getD 3 0,
    st.getD 4 0, st.getD 5 0, st.getD 6 0, st.getD 7 0)
  let fin := (List.range 64).foldl (shaRound w) init
  [add32 (st.getD 0 0) fin.1, add32 (st.getD 1 0) fin.2.1,
   add32 (st.getD 2 0) fin.2.2.1, add32 (st.getD 3 0) fin.2.2.2.1,
   add32 (st.getD 4 0) fin.2.2.2.2.1, add32 (st.getD 5 0) fin.2.2.2.2.2.1,
   add32 (st.getD 6 0) fin.2.2.2.2.2.2.1, add32 (st.getD 7 0) fin.2.2.2.2.2.2.2]

/-- Split a byte list into consecutive 64-byte chunks. -/
def chunks64 (l : List Nat) : List (List Nat) :=
  if h : l = [] then []
  else l.take 64 :: chunks64 (l.drop 64)
termination_by l.length
decreasing_by
  simp only [List.length_drop]
  have : l.length ≠ 0 := fun hz => h (List.eq_nil_of_length_eq_zero hz)
  omega

/-- SHA-256 of a byte list: pad, compress each block, serialize the state. -/
def sha256 (msg : List Nat) : List Nat :=
  let len := msg.length
  let padded := msg ++ 128 :: (List.replicate ((119 - len % 64) % 64) 0 ++ beBytes 8 (8 * len))
  let final := (chunks64 padded).foldl compress shaH0
  final.foldr (fun wd acc => beBytes 4 wd ++ acc) []

/-! ## HMAC-SHA256 (FIPS 198-1) and PBKDF2-HMAC-SHA256 (RFC 8018) -/

/-- HMAC-SHA256 over byte lists: hash over-long keys, zero-pad to the 64-byte
block, and run the nested inner/outer SHA-256 with the 0x36/0x5c pads. -/
def hmacSha256Bytes (key msg : List Nat) : List Nat :=
  let k0 := if 64 < key.length then sha256 key else key
  let kp := k0 ++ List.replicate (64 - k0.length) 0
  let ip := kp.map (fun b => Nat.xor b 54)
  let op := kp.map (fun b => Nat.xor b 92)
  sha256 (op ++ sha256 (ip ++ msg))

/-- The iterated-XOR loop of PBKDF2: each step rehashes the previous `U` under
the password key and XORs it into the accumulator `T`. -/
def pbkdf2Loop (password : List Nat) : Nat → List Nat × List Nat → List Nat × List Nat
  | 0, tu => tu
  | n + 1, (t, u) =>
    let u2 := hmacSha256Bytes password u
    pbkdf2Loop password n (List.zipWith Nat.xor t u2, u2)

/-- PBKDF2-HMAC-SHA256 with a 32-byte derived key (exactly one block, index 1):
`U1 = HMAC(password, salt ++ INT(1))`, then `rounds - 1` further XOR steps. -/
def pbkdf2Sha256 (password salt : List Nat) (rounds : Nat) : List Nat :=
  let u1 := hmacSha256Bytes password (salt ++ beBytes 4 1)
  (pbkdf2Loop password (rounds - 1) (u1, u1)).1

/-! ## UTF-8 encoding and base64 codec -/

/-- UTF-8 encoding of a single character. -/
def utf8Char (c : Char) : List Nat :=
  let n := c.toNat
  if n < 128 then [n]
  else if n < 2048 then [192 + n / 64, 128 + n % 64]
  else if n < 65536 then [224 + n / 4096, 128 + n / 64 % 64, 128 + n % 64]
  else [240 + n / 262144, 128 + n / 4096 % 64, 128 + n / 64 % 64, 128 + n % 64]

/-- UTF-8 encoding of a string as a byte list. -/
def utf8Encode (s : String) : List Nat :=
  s.data.foldr (fun c acc => utf8Char c ++ acc) []

/-- The 64-character base64 alphabet. -/
def b64Alphabet : List Char :=
  "ABCDEFGHIJKLMNOPQRSTUVWXYZabcdefghijklmnopqrstuvwxyz0123456789+/".data

/-- The base64 digit for a 6-bit value. -/
def b64Digit (n : Nat) : Char := b64Alphabet.getD n 'A'

/-- Base64-encode a byte list three bytes at a time, with `=` padding. -/
def b64Chunks : List Nat → List Char
  | a :: b :: c :: rest =>
    let n := (a * 256 + b) * 256 + c
    b64Digit (n / 262144) :: b64Digit (n / 4096 % 64) :: b64Digit (n / 64 % 64) ::
      b64Digit (n % 64) :: b64Chunks rest
  | [a, b] => [b64Digit (a / 4), b64Digit (a % 4 * 16 + b / 16), b64Digit (b % 16 * 4), '=']
  | [a] => [b64Digit (a / 4), b64Digit (a % 4 * 16), '=', '=']
  | [] => []

/-- Base64 encoding of a byte list, as produced by Node Buffer.toString. -/
def base64Encode (l : List Nat) : String := String.mk (b64Chunks l)

/-- Position of a character in the base64 alphabet, if any. -/
def b64Index : List Char → Char → Nat → Option Nat
  | [], _, _ => none
  | x :: xs, c, i => if x == c then some i else b64Index xs c (i + 1)

/-- The 6-bit value of a base64 digit, `none` for characters outside the
alphabet (including the padding character). -/
def b64Val (c : Char) : Option Nat := b64Index b64Alphabet c 0

/-- Reassemble bytes from 6-bit values, four at a time; leftover groups of
two or three values yield one or two bytes, a lone value is dropped. -/
def b64Quads : List Nat → List Nat
  | v1 :: v2 :: v3 :: v4 :: rest =>
    (v1 * 4 + v2 / 16) :: (v2 % 16 * 16 + v3 / 4) :: (v3 % 4 * 64 + v4) :: b64Quads rest
  | [v1, v2, v3] => [v1 * 4 + v2 / 16, v2 % 16 * 16 + v3 / 4]
  | [v1, v2] => [v1 * 4 + v2 / 16]
  | _ => []

/-- Lenient base64 decoding as done by Node Buffer.from(s, base64): characters
outside the alphabet are ignored rather than rejected, so decoding never
fails, whatever the input string. -/
def base64Decode (s : String) : List Nat :=
  b64Quads (s.data.filterMap b64Val)

/-! ## Source embedding: src/logic/kostalApi/scramAuth.ts -/

/-- pbkdf2SaltedPassword (scramAuth.ts lines 11-17): derive the salted
password via PBKDF2-SHA256 with a fixed 32-byte key length. -/
def pbkdf2SaltedPassword (password : String) (saltBytes : List Nat) (rounds : Nat) : List Nat :=
  pbkdf2Sha256 (utf8Encode password) saltBytes rounds

/-- hmacSha256 (scramAuth.ts lines 22-24): HMAC-SHA256 of a UTF-8 string
message under a byte key. -/
def hmacSha256 (keyBytes : List Nat) (msg : String) : List Nat :=
  hmacSha256Bytes keyBytes (utf8Encode msg)

/-- xorBuffers (scramAuth.ts lines 29-35): allocate an output of the shorter
length and XOR the two inputs pointwise. -/
def xorBuffers (a b : List Nat) : List Nat :=
  (List.range (min a.length b.length)).map (fun i => Nat.xor (a.getD i 0) (b.getD i 0))

/-- The record returned by clientProof. -/
structure ClientProofResult where
  salted : List Nat
  clientKey : List Nat
  storedKey : List Nat
  proof : String
deriving DecidableEq

/-- clientProof (scramAuth.ts lines 40-56): salted password, client key,
stored key and the base64 XOR proof. -/
def clientProof (password : String) (saltBytes : List Nat) (rounds : Nat)
    (authMsg : String) : ClientProofResult :=
  let salted := pbkdf2SaltedPassword password saltBytes rounds
  let clientKey := hmacSha256 salted "Client Key"
  let storedKey := sha256 clientKey
  let clientSignature := hmacSha256Bytes storedKey (utf8Encode authMsg)
  let proof := base64Encode (xorBuffers clientKey clientSignature)
  ⟨salted, clientKey, storedKey, proof⟩

/-- expectedServerSignatureB64 (scramAuth.ts lines 61-70): base64 of
HMAC(HMAC(salted, "Server Key"), authMsg). -/
def expectedServerSignatureB64 (salted : List Nat) (authMsg : String) : String :=
  let serverKey := hmacSha256 salted "Server Key"
  base64Encode (hmacSha256Bytes serverKey (utf8Encode authMsg))

/-- Streaming HMAC context as created by crypto.createHmac: an update call
appends to the pending input, digest runs HMAC-SHA256 over everything fed
so far. -/
structure HmacCtx where
  key : List Nat
  acc : List Nat

/-- crypto.createHmac of sha256 under a byte key: empty pending input. -/
def createHmac (key : List Nat) : HmacCtx := ⟨key, []⟩

/-- Feed raw bytes to a streaming HMAC. -/
def HmacCtx.updateBytes (h : HmacCtx) (data : List Nat) : HmacCtx :=
  ⟨h.key, h.acc ++ data⟩

/-- Feed a UTF-8 string to a streaming HMAC. -/
def HmacCtx.updateUtf8 (h : HmacCtx) (s : String) : HmacCtx :=
  h.updateBytes (utf8Encode s)

/-- Produce the digest of a streaming HMAC. -/
def HmacCtx.digest (h : HmacCtx) : List Nat := hmacSha256Bytes h.key h.acc

/-- deriveProtocolKey (scramAuth.ts lines 76-86): one streaming HMAC keyed
with the stored key, fed "Session Key", the auth message and the client key
in three incremental update calls, then digested. -/
def deriveProtocolKey (storedKey : List Nat) (authMsg : String)
    (clientKey : List Nat) : List Nat :=
  let h := createHmac storedKey
  let h := h.updateUtf8 "Session Key"
  let h := h.updateUtf8 authMsg
  let h := h.updateBytes clientKey
  h.digest

/-- buildAuthMessage (scramAuth.ts lines 115-123): the SCRAM auth message
template literal. The iteration count is a JS number, printed in decimal. -/
def buildAuthMessage (role cNonce sNonce saltB64 : String) (iterations : Int) : String :=
  "n=" ++ role ++ ",r=" ++ cNonce ++ ",r=" ++ sNonce ++ ",s=" ++ saltB64 ++
    ",i=" ++ toString iterations ++ ",c=biws,r=" ++ sNonce

/-- Whitespace skipped by JS parseInt. -/
def jsWhitespace (c : Char) : Bool :=
  c == ' ' || c == '\t' || c == '\n' || c == '\r'

/-- Numeric value of a decimal digit list. -/
def digitsVal (cs : List Char) : Nat :=
  cs.foldl (fun a c => a * 10 + (c.toNat - 48)) 0

/-- Parse the maximal leading run of decimal digits; none when it is empty. -/
def parseDigits (cs : List Char) : Option Nat :=
  match cs.takeWhile Char.isDigit with
  | [] => none
  | ds => some (digitsVal ds)

/-- JS parseInt(s, 10): skip leading whitespace, take an optional sign and a
maximal digit run; NaN (modelled as none) when no digit follows. -/
def parseInt10 (s : String) : Option Int :=
  match s.data.dropWhile jsWhitespace with
  | '-' :: rest => (parseDigits rest).map (fun n => -(n : Int))
  | '+' :: rest => (parseDigits rest).map (fun n => (n : Int))
  | rest => (parseDigits rest).map (fun n => (n : Int))

/-- Shape of the auth/start response body (types, scheduleBuilder.ts). -/
structure StartResp where
  transactionId : String
  nonce : String
  salt : String
  rounds : String
deriving DecidableEq

/-- Shape of the auth/finish response body; fields the code tests for JS
truthiness are options, with the empty string also falsy. -/
structure FinishResp where
  token : Option String
  signature : Option String
deriving DecidableEq

/-- Shape of the auth/create-session response body. -/
structure SessResp where
  sessionId : Option String
deriving DecidableEq

/-- Outcome of a fetch call: a parsed 2xx body, or a non-2xx status with its
body text. -/
inductive HttpResult (α : Type) where
  | ok (body : α)
  | notOk (status : Nat) (text : String)
deriving DecidableEq

/-- The three handshake endpoints, in request order. -/
inductive Endpoint where
  | start
  | finish
  | createSession
deriving DecidableEq

/-- The errors performScramAuth can throw, one per throw site: three HTTP
transport failures, the pbkdf2 iteration-count rejection raised by
crypto.pbkdf2Sync when parseInt produced NaN or a non-positive count, the
two missing-field protocol failures, and the signature mismatch. -/
inductive ScramError where
  | startFailed (status : Nat) (text : String)
  | badIterations
  | finishFailed (status : Nat) (text : String)
  | noToken
  | signatureMismatch
  | sessionFailed (status : Nat) (text : String)
  | noSessionId
deriving DecidableEq

/-- JS truthiness of an optional string field: present and nonempty. -/
def optTruthy : Option String → Bool
  | none => false
  | some s => s != ""

/-- Step 3 of performScramAuth (scramAuth.ts lines 190-216): derive the
protocol key, wrap the token (the AES-GCM ciphertext only feeds the request
body, which is not among the modelled observables), post to create_session
and extract the sessionId. -/
def scramSessionStep (cp : ClientProofResult) (authMsg : String)
    (sessR : HttpResult SessResp) : Except ScramError String × List Endpoint :=
  let _protocolKey := deriveProtocolKey cp.storedKey authMsg cp.clientKey
  match sessR with
  | .notOk status text =>
    (.error (.sessionFailed status text), [.start, .finish, .createSession])
  | .ok sess =>
    match sess.sessionId with
    | none => (.error .noSessionId, [.start, .finish, .createSession])
    | some sid =>
      if sid == "" then (.error .noSessionId, [.start, .finish, .createSession])
      else (.ok sid, [.start, .finish, .createSession])

/-- Step 2 of performScramAuth (scramAuth.ts lines 164-188): check the finish
transport result, require a token, and verify the server signature when one
is present (skipping verification entirely when it is absent). -/
def scramFinishStep (cp : ClientProofResult) (authMsg : String)
    (finishR : HttpResult FinishResp) (sessR : HttpResult SessResp) :
    Except ScramError String × List Endpoint :=
  match finishR with
  | .notOk status text => (.error (.finishFailed status text), [.start, .finish])
  | .ok fin =>
    if !optTruthy fin.token then (.error .noToken, [.start, .finish])
    else
      match fin.signature with
      | some sig =>
        if sig != "" then
          if expectedServerSignatureB64 cp.salted authMsg != sig then
            (.error .signatureMismatch, [.start, .finish])
          else scramSessionStep cp authMsg sessR
        else scramSessionStep cp authMsg sessR
      | none => scramSessionStep cp authMsg sessR

/-- performScramAuth (scramAuth.ts lines 129-217) as a function of the
password, role, the random client nonce, and the three HTTP outcomes.
Returns the thrown error or the sessionId, together with the list of
endpoints actually requested. The salt is decoded leniently, the rounds
field goes through parseInt; clientProof (hence crypto.pbkdf2Sync, which
rejects a NaN or non-positive iteration count) runs before the finish
request is issued. -/
def performScramAuth (password role cNonce : String)
    (startR : HttpResult StartResp) (finishR : HttpResult FinishResp)
    (sessR : HttpResult SessResp) : Except ScramError String × List Endpoint :=
  match startR with
  | .notOk status text => (.error (.startFailed status text), [.start])
  | .ok start =>
    let saltBytes := base64Decode start.salt
    match parseInt10 start.rounds with
    | none => (.error .badIterations, [.start])
    | some iterations =>
      if iterations < 1 then (.error .badIterations, [.start])
      else
        let authMsg := buildAuthMessage role cNonce start.nonce start.salt iterations
        let cp := clientProof password saltBytes iterations.toNat authMsg
        scramFinishStep cp authMsg finishR sessR

/-! ## Source embedding: src/logic/kostalApi/sessionManager.ts -/

/-- A JS error value as the manager classifies it: an optional statusCode
property and the message string. -/
structure JsError where
  statusCode : Option Nat
  message : String
deriving DecidableEq

/-- The cached session record: sessionId plus the Date.now() timestamp. -/
structure CachedSession where
  sessionId : String
  createdAt : Nat
deriving DecidableEq

/-- The mutable fields of a SessionManager instance, together with the
persistent-store entry under the key _kostal_session. -/
structure MgrState where
  ip : String
  password : String
  cachedSession : Option CachedSession
  isAuthenticating : Bool
  storeSession : Option CachedSession
deriving DecidableEq

/-- Observable effects of a manager operation, in order: SCRAM handshakes,
persistent-store writes of the session entry, and apiCall invocations with
the sessionId passed. -/
inductive MgrEv where
  | handshake
  | storeWrite (value : Option CachedSession)
  | apiCall (sessionId : String)
deriving DecidableEq

/-- The concurrency error thrown when a handshake is already in flight. -/
def concurrencyError : JsError := ⟨none, "Authentication already in progress"⟩

/-- The configuration error thrown when ip or password is empty. -/
def configError : JsError := ⟨none, "Inverter IP or password not configured"⟩

/-- Does a character list start with the given pattern? -/
def startsWithL : List Char → List Char → Bool
  | [], _ => true
  | _ :: _, [] => false
  | p :: ps, c :: cs => p == c && startsWithL ps cs

/-- Does a character list contain the given pattern as a contiguous run? -/
def hasSubL (pat : List Char) : List Char → Bool
  | [] => pat == []
  | c :: cs => startsWithL pat (c :: cs) || hasSubL pat cs

/-- JS String.includes. -/
def strIncludes (s pat : String) : Bool := hasSubL pat.data s.data

/-- isAuthError (sessionManager.ts lines 114-125): statusCode 401 or 403, or
a message containing 401, 403 or Unauthorized. -/
def isAuthError (e : JsError) : Bool :=
  e.statusCode == some 401 || e.statusCode == some 403 ||
    strIncludes e.message "401" || strIncludes e.message "403" ||
    strIncludes e.message "Unauthorized"

/-- authenticate (sessionManager.ts lines 68-100) as a function of the
current state, the outcome the SCRAM handshake would produce, the outcome
the persistent-store write would produce, and the current clock reading.
Returns the result, the successor state, and the observable effects. -/
def authenticate (scramRes : Except JsError String) (storeRes : Except JsError Unit)
    (now : Nat) (s : MgrState) : Except JsError String × MgrState × List MgrEv :=
  if s.isAuthenticating then (.error concurrencyError, s, [])
  else
    let s1 : MgrState := { s with isAuthenticating := true }
    if s1.ip = "" ∨ s1.password = "" then
      (.error configError, { s1 with isAuthenticating := false }, [])
    else
      match scramRes with
      | .error e => (.error e, { s1 with isAuthenticating := false }, [.handshake])
      | .ok sid =>
        let session : CachedSession := ⟨sid, now⟩
        let s2 : MgrState := { s1 with cachedSession := some session }
        match storeRes with
        | .error e =>
          (.error e, { s2 with isAuthenticating := false },
            [.handshake, .storeWrite (some session)])
        | .ok _ =>
          (.ok sid,
            { s2 with storeSession := some session, isAuthenticating := false },
            [.handshake, .storeWrite (some session)])

/-- getSession (sessionManager.ts lines 47-63): in-memory cache hit, else a
truthy persisted entry promoted to memory, else authenticate. -/
def getSession (scramRes : Except JsError String) (storeRes : Except JsError Unit)
    (now : Nat) (s : MgrState) : Except JsError String × MgrState × List MgrEv :=
  match s.cachedSession with
  | some cs => (.ok cs.sessionId, s, [])
  | none =>
    match s.storeSession with
    | some stored =>
      if stored.sessionId != "" then
        (.ok stored.sessionId, { s with cachedSession := some stored }, [])
      else authenticate scramRes storeRes now s
    | none => authenticate scramRes storeRes now s

/-- invalidateSession (sessionManager.ts lines 105-109): clear the in-memory
cache, then await the persistent-store write of null; the cache is already
cleared when a failing write rejects. -/
def invalidateSession (storeRes : Except JsError Unit) (s : MgrState) :
    Except JsError Unit × MgrState × List MgrEv :=
  let s1 : MgrState := { s with cachedSession := none }
  match storeRes with
  | .error e => (.error e, s1, [.storeWrite none])
  | .ok _ => (.ok (), { s1 with storeSession := none }, [.storeWrite none])

/-- updateCredentials (sessionManager.ts lines 37-42): replace ip and
password and null the in-memory cache. -/
def updateCredentials (ip password : String) (s : MgrState) : MgrState :=
  { s with ip := ip, password := password, cachedSession := none }

/-- executeWithAuthRecovery (sessionManager.ts lines 133-159) as a function
of the per-invocation behavior of apiCall (first and second call), the
environment outcomes consumed by getSession, invalidateSession and the
recovery authenticate, and the state. Returns the result, the successor
state and the effects in order. -/
def executeWithAuthRecovery {α : Type}
    (api1 api2 : String → Except JsError α)
    (gsScram reScram : Except JsError String)
    (gsStore invStore reStore : Except JsError Unit)
    (gsNow reNow : Nat) (s : MgrState) :
    Except JsError α × MgrState × List MgrEv :=
  match getSession gsScram gsStore gsNow s with
  | (.error e, s1, evs) => (.error e, s1, evs)
  | (.ok sid, s1, evs) =>
    match api1 sid with
    | .ok v => (.ok v, s1, evs ++ [.apiCall sid])
    | .error e =>
      if isAuthError e then
        match invalidateSession invStore s1 with
        | (.error e2, s2, evs2) => (.error e2, s2, evs ++ [.apiCall sid] ++ evs2)
        | (.ok _, s2, evs2) =>
          match authenticate reScram reStore reNow s2 with
          | (.error e3, s3, evs3) =>
            (.error e3, s3, evs ++ [.apiCall sid] ++ evs2 ++ evs3)
          | (.ok newSid, s3, evs3) =>
            (api2 newSid, s3,
              evs ++ [.apiCall sid] ++ evs2 ++ evs3 ++ [.apiCall newSid])
      else (.error e, s1, evs ++ [.apiCall sid])

/-! ## Spec-side rendering of the auth message -/

/-- Modelled from the spec: the seven auth-message fields in the specified
order, with the server nonce occurring in the third and the final position. -/
def scramFields (role cNonce sNonce saltB64 : String) (iterations : Int) : List String :=
  ["n=" ++ role, "r=" ++ cNonce, "r=" ++ sNonce, "s=" ++ saltB64,
   "i=" ++ toString iterations, "c=biws", "r=" ++ sNonce]

/-- Comma-join a field list. -/
def joinFields : List String → String
  | [] => ""
  | [f] => f
  | f :: rest => f ++ "," ++ joinFields rest

/-! ## Supporting lemmas -/

theorem beBytes_length (k n : Nat) : (beBytes k n).length = k := by
  induction k generalizing n with
  | zero => rfl
  | succ k ih => simp [beBytes, ih]

theorem compress_length (st block : List Nat) : (compress st block).length = 8 := by
  simp [compress]

theorem foldl_compress_length (blocks : List (List Nat)) (st : List Nat)
    (h : st.length = 8) : (blocks.foldl compress st).length = 8 := by
  induction blocks generalizing st with
  | nil => simpa using h
  | cons b bs ih => exact ih _ (compress_length st b)

theorem foldr_beBytes_length (l : List Nat) :
    (l.foldr (fun wd acc => beBytes 4 wd ++ acc) []).length = 4 * l.length := by
  induction l with
  | nil => rfl
  | cons x xs ih =>
    simp only [List.foldr_cons, List.length_append, beBytes_length, ih, List.length_cons]
    ring

theorem sha256_length (msg : List Nat) : (sha256 msg).length = 32 := by
  unfold sha256
  rw [foldr_beBytes_length, foldl_compress_length]
  rfl

theorem hmacSha256Bytes_length (key msg : List Nat) :
    (hmacSha256Bytes key msg).length = 32 := by
  simp [hmacSha256Bytes, sha256_length]

theorem pbkdf2Loop_fst_length (password : List Nat) (n : Nat) (t u : List Nat)
    (h : t.length = 32) : (pbkdf2Loop password n (t, u)).1.length = 32 := by
  induction n generalizing t u with
  | zero => simpa [pbkdf2Loop] using h
  | succ n ih =>
    simp only [pbkdf2Loop]
    exact ih _ _ (by simp [hmacSha256Bytes_length, h])

theorem pbkdf2Sha256_length (password salt : List Nat) (rounds : Nat) :
    (pbkdf2Sha256 password salt rounds).length = 32 := by
  unfold pbkdf2Sha256
  exact pbkdf2Loop_fst_length _ _ _ _ (hmacSha256Bytes_length _ _)

theorem b64Chunks_length (l : List Nat) :
    (b64Chunks l).length = 4 * ((l.length + 2) / 3) := by
  induction l using b64Chunks.induct with
  | case1 a b c rest ih => simp only [b64Chunks, List.length_cons, ih]; omega
  | case2 a b => simp [b64Chunks]
  | case3 a => simp [b64Chunks]
  | case4 => rfl

theorem base64Encode_length (l : List Nat) :
    (base64Encode l).length = 4 * ((l.length + 2) / 3) := by
  simpa [base64Encode, String.length] using b64Chunks_length l

theorem expectedServerSignatureB64_length (salted : List Nat) (authMsg : String) :
    (expectedServerSignatureB64 salted authMsg).length = 44 := by
  simp [expectedServerSignatureB64, hmacSha256, base64Encode_length, hmacSha256Bytes_length]

/-! ## Claim theorems -/

/-- C1: for every password, salt, iteration count and auth message,
clientProof returns saltedPassword = PBKDF2-HMAC-SHA256(password, salt,
rounds) with 32-byte output, clientKey = HMAC-SHA256(saltedPassword,
"Client Key"), storedKey = SHA-256(clientKey), and proof =
base64(XOR(clientKey, HMAC-SHA256(storedKey, authMsg))). -/
theorem clientProof_spec (password : String) (saltBytes : List Nat) (rounds : Nat)
    (authMsg : String) :
    (clientProof password saltBytes rounds authMsg).salted =
      pbkdf2Sha256 (utf8Encode password) saltBytes rounds ∧
    (clientProof password saltBytes rounds authMsg).salted.length = 32 ∧
    (clientProof password saltBytes rounds authMsg).clientKey =
      hmacSha256Bytes (clientProof password saltBytes rounds authMsg).salted
        (utf8Encode "Client Key") ∧
    (clientProof password saltBytes rounds authMsg).storedKey =
      sha256 (clientProof password saltBytes rounds authMsg).clientKey ∧
    (clientProof password saltBytes rounds authMsg).proof =
      base64Encode (xorBuffers (clientProof password saltBytes rounds authMsg).clientKey
        (hmacSha256Bytes (clientProof password saltBytes rounds authMsg).storedKey
          (utf8Encode authMsg))) :=
  ⟨rfl, pbkdf2Sha256_length _ _ _, rfl, rfl, rfl⟩

/-- C2: buildAuthMessage returns exactly the string
n=role,r=clientNonce,r=serverNonce,s=saltBase64,i=iterations,c=biws,r=serverNonce,
which is the comma-join of the seven fields in this order, contains the
literal c=biws, and (for distinct nonces) carries the server nonce field
exactly twice. -/
theorem buildAuthMessage_spec (role cNonce sNonce saltB64 : String) (iterations : Int) :
    buildAuthMessage role cNonce sNonce saltB64 iterations =
      "n=" ++ role ++ ",r=" ++ cNonce ++ ",r=" ++ sNonce ++ ",s=" ++ saltB64 ++
        ",i=" ++ toString iterations ++ ",c=biws,r=" ++ sNonce ∧
    buildAuthMessage role cNonce sNonce saltB64 iterations =
      joinFields (scramFields role cNonce sNonce saltB64 iterations) ∧
    "c=biws" ∈ scramFields role cNonce sNonce saltB64 iterations ∧
    (cNonce ≠ sNonce →
      (scramFields role cNonce sNonce saltB64 iterations).count ("r=" ++ sNonce) = 2) := by
  refine ⟨rfl, ?_, ?_, ?_⟩
  · apply String.ext
    simp [buildAuthMessage, scramFields, joinFields, String.data_append]
  · simp [scramFields]
  · intro hne
    have h1 : ("r=" ++ sNonce) ≠ ("n=" ++ role) := by
      intro h; have := congrArg String.data h; simp [String.data_append] at this
    have h2 : ("r=" ++ sNonce) ≠ ("r=" ++ cNonce) := by
      intro h; have := congrArg String.data h; simp [String.data_append] at this
      exact hne (String.ext this.symm)
    have h3 : ("r=" ++ sNonce) ≠ ("s=" ++ saltB64) := by
      intro h; have := congrArg String.data h; simp [String.data_append] at this
    have h4 : ("r=" ++ sNonce) ≠ ("i=" ++ toString iterations) := by
      intro h; have := congrArg String.data h; simp [String.data_append] at this
    have h5 : ("r=" ++ sNonce) ≠ "c=biws" := by
      intro h; have := congrArg String.data h; simp [String.data_append] at this
    simp [scramFields, List.count_cons, h1, h2, h3, h4, h5]

/-- Witness for C2 at a concrete instance with distinct nonces. -/
theorem buildAuthMessage_spec_witness :
    ("cn" : String) ≠ "sn" ∧
      (scramFields "user" "cn" "sn" "c2FsdA==" 4096).count ("r=" ++ "sn") = 2 :=
  ⟨by decide, (buildAuthMessage_spec "user" "cn" "sn" "c2FsdA==" 4096).2.2.2 (by decide)⟩

/-- C3: with a cached session, executeWithAuthRecovery invokes apiCall once;
an auth-classified failure triggers one invalidation, exactly one new
handshake and exactly one retry with the new sessionId, whose outcome
(success or failure) is propagated unmodified; a non-auth failure
propagates immediately with no invalidation, no handshake and no retry. -/
theorem executeWithAuthRecovery_spec {α : Type} (api1 api2 : String → Except JsError α)
    (gsScram reScram : Except JsError String)
    (gsStore invStore reStore : Except JsError Unit)
    (gsNow reNow : Nat) (s : MgrState) (cs : CachedSession)
    (e : JsError) (nsid : String)
    (hc : s.cachedSession = some cs) :
    (api1 cs.sessionId = .error e → isAuthError e = true →
      invStore = .ok () → reScram = .ok nsid → reStore = .ok () →
      s.isAuthenticating = false → s.ip ≠ "" → s.password ≠ "" →
      executeWithAuthRecovery api1 api2 gsScram reScram gsStore invStore reStore gsNow reNow s =
        (api2 nsid,
          { s with cachedSession := some ⟨nsid, reNow⟩, storeSession := some ⟨nsid, reNow⟩, isAuthenticating := false },
          [.apiCall cs.sessionId, .storeWrite none, .handshake,
            .storeWrite (some ⟨nsid, reNow⟩), .apiCall nsid])) ∧
    (api1 cs.sessionId = .error e → isAuthError e = false →
      executeWithAuthRecovery api1 api2 gsScram reScram gsStore invStore reStore gsNow reNow s =
        (.error e, s, [.apiCall cs.sessionId])) := by
  constructor
  · intro h1 h2 h3 h4 h5 hauth hip hpw
    subst h3; subst h4; subst h5
    simp [executeWithAuthRecovery, getSession, hc, h1, h2, invalidateSession,
      authenticate, hauth, hip, hpw]
  · intro h1 h2
    simp [executeWithAuthRecovery, getSession, hc, h1, h2]

/-- Witness for C3: a 401-classified failure is retried once with the fresh
sessionId and the retry's value is returned; a plain failure passes through
after a single apiCall. -/
theorem executeWithAuthRecovery_spec_witness :
    executeWithAuthRecovery (fun _ => .error ⟨some 401, "denied"⟩) (fun _ => .ok 7)
        (.ok "unused") (.ok "S2") (.ok ()) (.ok ()) (.ok ()) 1 2
        ⟨"192.168.0.2", "pw", some ⟨"S1", 0⟩, false, none⟩ =
      (.ok 7,
        ⟨"192.168.0.2", "pw", some ⟨"S2", 2⟩, false, some ⟨"S2", 2⟩⟩,
        [.apiCall "S1", .storeWrite none, .handshake, .storeWrite (some ⟨"S2", 2⟩),
          .apiCall "S2"]) ∧
    executeWithAuthRecovery (fun _ => .error ⟨none, "boom"⟩) (fun _ => .ok 7)
        (.ok "unused") (.ok "S2") (.ok ()) (.ok ()) (.ok ()) 1 2
        ⟨"192.168.0.2", "pw", some ⟨"S1", 0⟩, false, none⟩ =
      (.error ⟨none, "boom"⟩, ⟨"192.168.0.2", "pw", some ⟨"S1", 0⟩, false, none⟩,
        [.apiCall "S1"]) :=
  ⟨(executeWithAuthRecovery_spec _ _ _ _ _ _ _ _ _ _ ⟨"S1", 0⟩ ⟨some 401, "denied"⟩ "S2"
      rfl).1 rfl (by decide) rfl rfl rfl rfl (by decide) (by decide),
   (executeWithAuthRecovery_spec _ _ _ _ _ _ _ _ _ _ ⟨"S1", 0⟩ ⟨none, "boom"⟩ "S2"
      rfl).2 rfl (by decide)⟩

/-- C5: authenticate rejects immediately with the concurrency error, leaving
the state untouched, whenever isAuthenticating is already true; and when an
attempt does start (the flag was false), the flag is false again in the
successor state on the success path and on every failure path. -/
theorem authenticate_mutex_spec (scramRes : Except JsError String)
    (storeRes : Except JsError Unit) (now : Nat) (s : MgrState) :
    (s.isAuthenticating = true →
      authenticate scramRes storeRes now s = (.error concurrencyError, s, [])) ∧
    (s.isAuthenticating = false →
      ((authenticate scramRes storeRes now s).2.1).isAuthenticating = false) := by
  constructor
  · intro h; simp [authenticate, h]
  · intro h
    simp only [authenticate, h, Bool.false_eq_true, if_false]
    split
    · rfl
    · cases scramRes with
      | error e => rfl
      | ok sid => cases storeRes with
        | error e => rfl
        | ok u => rfl

/-- Witness for C5: the busy flag forces an immediate concurrency rejection,
and a completed attempt (here: a failing handshake) leaves the flag false. -/
theorem authenticate_mutex_spec_witness :
    authenticate (.ok "x") (.ok ()) 5 ⟨"ip", "pw", none, true, none⟩ =
      (.error concurrencyError, ⟨"ip", "pw", none, true, none⟩, []) ∧
    ((authenticate (.error ⟨none, "down"⟩) (.ok ()) 5
        ⟨"ip", "pw", none, false, none⟩).2.1).isAuthenticating = false :=
  ⟨(authenticate_mutex_spec (.ok "x") (.ok ()) 5 ⟨"ip", "pw", none, true, none⟩).1 rfl,
   (authenticate_mutex_spec (.error ⟨none, "down"⟩) (.ok ()) 5
      ⟨"ip", "pw", none, false, none⟩).2 rfl⟩

/-- C9: updateCredentials replaces the host and password and nulls the
in-memory cachedSession, while the persisted _kostal_session entry and the
isAuthenticating flag are left exactly as they were. -/
theorem updateCredentials_spec (ip password : String) (s : MgrState) :
    updateCredentials ip password s =
      ⟨ip, password, none, s.isAuthenticating, s.storeSession⟩ := rfl

/-- C10: when the handshake succeeds but the persistent-store write fails,
authenticate propagates the store error while the in-memory cache already
holds the new session (the persisted entry is unchanged), and every later
getSession on that state returns the new sessionId with no further
handshake. -/
theorem authenticate_store_failure_spec (sid : String) (e : JsError) (now : Nat)
    (s : MgrState) (hauth : s.isAuthenticating = false)
    (hip : s.ip ≠ "") (hpw : s.password ≠ "") :
    authenticate (.ok sid) (.error e) now s =
      (.error e,
        { s with cachedSession := some ⟨sid, now⟩, isAuthenticating := false },
        [.handshake, .storeWrite (some ⟨sid, now⟩)]) ∧
    ∀ scramRes storeRes now2,
      getSession scramRes storeRes now2
          { s with cachedSession := some ⟨sid, now⟩, isAuthenticating := false } =
        (.ok sid, { s with cachedSession := some ⟨sid, now⟩, isAuthenticating := false },
          []) := by
  constructor
  · simp [authenticate, hauth, hip, hpw]
  · intro scramRes storeRes now2
    simp [getSession]

/-- Witness for C10 at a concrete state and store failure. -/
theorem authenticate_store_failure_spec_witness :
    authenticate (.ok "S9") (.error ⟨none, "disk full"⟩) 7
        ⟨"192.168.0.2", "pw", none, false, some ⟨"old", 1⟩⟩ =
      (.error ⟨none, "disk full"⟩,
        ⟨"192.168.0.2", "pw", some ⟨"S9", 7⟩, false, some ⟨"old", 1⟩⟩,
        [.handshake, .storeWrite (some ⟨"S9", 7⟩)]) ∧
    getSession (.error ⟨none, "never"⟩) (.ok ()) 8
        ⟨"192.168.0.2", "pw", some ⟨"S9", 7⟩, false, some ⟨"old", 1⟩⟩ =
      (.ok "S9", ⟨"192.168.0.2", "pw", some ⟨"S9", 7⟩, false, some ⟨"old", 1⟩⟩, []) :=
  ⟨(authenticate_store_failure_spec "S9" ⟨none, "disk full"⟩ 7
      ⟨"192.168.0.2", "pw", none, false, some ⟨"old", 1⟩⟩ rfl (by decide) (by decide)).1,
   (authenticate_store_failure_spec "S9" ⟨none, "disk full"⟩ 7
      ⟨"192.168.0.2", "pw", none, false, some ⟨"old", 1⟩⟩ rfl (by decide) (by decide)).2
     (.error ⟨none, "never"⟩) (.ok ()) 8⟩

/-- C4: when the finish response carries a signature that differs from
base64(HMAC-SHA256(HMAC-SHA256(saltedPassword, "Server Key"), authMessage)),
performScramAuth fails with the signature-mismatch error having issued no
request to the create-session endpoint; when the signature field is absent,
verification is skipped and the handshake proceeds to session creation. -/
theorem scram_signature_enforcement_spec (password role cNonce : String)
    (start : StartResp) (fin : FinishResp) (sessR : HttpResult SessResp)
    (iterations : Int) (tok : String)
    (hr : parseInt10 start.rounds = some iterations) (hi : 1 ≤ iterations)
    (htok : fin.token = some tok) (htokne : tok ≠ "") :
    (∀ sig, fin.signature = some sig → sig ≠ "" →
      sig ≠ expectedServerSignatureB64
          (pbkdf2SaltedPassword password (base64Decode start.salt) iterations.toNat)
          (buildAuthMessage role cNonce start.nonce start.salt iterations) →
      performScramAuth password role cNonce (.ok start) (.ok fin) sessR =
        (.error .signatureMismatch, [.start, .finish])) ∧
    (fin.signature = none →
      (performScramAuth password role cNonce (.ok start) (.ok fin) sessR).2 =
        [.start, .finish, .createSession]) := by
  constructor
  · intro sig hsig hne hneq
    simp only [performScramAuth, hr]
    rw [if_neg (by omega : ¬ iterations < 1)]
    simp only [scramFinishStep, htok, hsig, optTruthy]
    rw [if_neg (by simp [htokne])]
    rw [if_pos (by simp [hne])]
    rw [if_pos (by simp; exact fun h => hneq h.symm)]
  · intro hsg
    simp only [performScramAuth, hr]
    rw [if_neg (by omega : ¬ iterations < 1)]
    simp only [scramFinishStep, htok, hsg, optTruthy]
    rw [if_neg (by simp [htokne])]
    cases sessR with
    | notOk status text => simp [scramSessionStep]
    | ok sess =>
      cases hss : sess.sessionId with
      | none => simp [scramSessionStep, hss]
      | some sid =>
        simp only [scramSessionStep, hss]
        split <;> rfl

/-- Witness for C4: the one-character signature x cannot equal the 44-character
expected signature, so the handshake aborts before create-session; with the
signature absent the create-session request is issued. -/
theorem scram_signature_enforcement_spec_witness :
    performScramAuth "pw" "user" "cn"
        (.ok ⟨"tx", "sn", "c2FsdA==", "1"⟩) (.ok ⟨some "tok", some "x"⟩)
        (.ok ⟨some "sid"⟩) =
      (.error .signatureMismatch, [.start, .finish]) ∧
    (performScramAuth "pw" "user" "cn"
        (.ok ⟨"tx", "sn", "c2FsdA==", "1"⟩) (.ok ⟨some "tok", none⟩)
        (.ok ⟨some "sid"⟩)).2 =
      [.start, .finish, .createSession] :=
  ⟨(scram_signature_enforcement_spec "pw" "user" "cn" ⟨"tx", "sn", "c2FsdA==", "1"⟩
      ⟨some "tok", some "x"⟩ (.ok ⟨some "sid"⟩) 1 "tok" rfl (by decide) rfl
      (by decide)).1 "x" rfl (by decide)
      (fun h => by
        have hl := congrArg String.length h
        rw [expectedServerSignatureB64_length] at hl
        exact absurd hl (by decide)),
   (scram_signature_enforcement_spec "pw" "user" "cn" ⟨"tx", "sn", "c2FsdA==", "1"⟩
      ⟨some "tok", none⟩ (.ok ⟨some "sid"⟩) 1 "tok" rfl (by decide) rfl
      (by decide)).2 rfl⟩

/-- Counterexample to C7 as stated: a start response whose salt field is not
base64 at all (every character outside the alphabet) does NOT make the
handshake fail — Buffer.from decodes leniently, and with well-formed rounds,
token and sessionId the handshake completes successfully, so a malformed
salt is not a protocol-error case. -/
theorem scram_malformed_salt_counterexample :
    performScramAuth "pw" "user" "cn"
        (.ok ⟨"tx", "sn", "???not*base64???", "1"⟩) (.ok ⟨some "tok", none⟩)
        (.ok ⟨some "sid"⟩) =
      (.ok "sid", [.start, .finish, .createSession]) := by
  rfl

/-- C7 amended: the handshake fails with a data-shape error exactly when the
rounds field is malformed (not parseable, or a non-positive count — the
pbkdf2 rejection), when the finish response lacks a truthy token, or when
the create-session response lacks a truthy sessionId; the salt field is
decoded leniently and never causes a failure, as the final conjunct shows
for an arbitrary salt string. -/
theorem scram_protocol_error_cases_spec (password role cNonce : String)
    (start : StartResp) (finR : HttpResult FinishResp) (sessR : HttpResult SessResp)
    (fin : FinishResp) (sess : SessResp)
    (iterations : Int) (tok sid : String) :
    (parseInt10 start.rounds = none →
      performScramAuth password role cNonce (.ok start) finR sessR =
        (.error .badIterations, [.start])) ∧
    (parseInt10 start.rounds = some iterations → iterations < 1 →
      performScramAuth password role cNonce (.ok start) finR sessR =
        (.error .badIterations, [.start])) ∧
    (parseInt10 start.rounds = some iterations → 1 ≤ iterations →
      (fin.token = none ∨ fin.token = some "") →
      performScramAuth password role cNonce (.ok start) (.ok fin) sessR =
        (.error .noToken, [.start, .finish])) ∧
    (parseInt10 start.rounds = some iterations → 1 ≤ iterations →
      fin.token = some tok → tok ≠ "" → fin.signature = none →
      (sess.sessionId = none ∨ sess.sessionId = some "") →
      performScramAuth password role cNonce (.ok start) (.ok fin) (.ok sess) =
        (.error .noSessionId, [.start, .finish, .createSession])) ∧
    (parseInt10 start.rounds = some iterations → 1 ≤ iterations →
      fin.token = some tok → tok ≠ "" → fin.signature = none →
      sess.sessionId = some sid → sid ≠ "" →
      performScramAuth password role cNonce (.ok start) (.ok fin) (.ok sess) =
        (.ok sid, [.start, .finish, .createSession])) := by
  refine ⟨?_, ?_, ?_, ?_, ?_⟩
  · intro h; simp [performScramAuth, h]
  · intro h hlt; simp [performScramAuth, h, hlt]
  · intro h hge htok
    simp only [performScramAuth, h]
    rw [if_neg (by omega : ¬ iterations < 1)]
    rcases htok with htok | htok <;>
      simp [scramFinishStep, htok, optTruthy]
  · intro h hge htok htokne hsg hss
    simp only [performScramAuth, h]
    rw [if_neg (by omega : ¬ iterations < 1)]
    simp only [scramFinishStep, htok, hsg, optTruthy]
    rw [if_neg (by simp [htokne])]
    rcases hss with hss | hss <;> simp [scramSessionStep, hss]
  · intro h hge htok htokne hsg hss hsidne
    simp only [performScramAuth, h]
    rw [if_neg (by omega : ¬ iterations < 1)]
    simp only [scramFinishStep, htok, hsg, optTruthy]
    rw [if_neg (by simp [htokne])]
    simp [scramSessionStep, hss, hsidne]

/-- Witness for the amended C7: unparseable rounds fail after the start
request only; a missing token fails after the finish request; a missing
sessionId fails after the create-session request. -/
theorem scram_protocol_error_cases_spec_witness :
    performScramAuth "pw" "user" "cn"
        (.ok ⟨"tx", "sn", "c2FsdA==", "garbage"⟩) (.ok ⟨some "tok", none⟩)
        (.ok ⟨some "sid"⟩) = (.error .badIterations, [.start]) ∧
    performScramAuth "pw" "user" "cn"
        (.ok ⟨"tx", "sn", "c2FsdA==", "1"⟩) (.ok ⟨none, none⟩)
        (.ok ⟨some "sid"⟩) = (.error .noToken, [.start, .finish]) ∧
    performScramAuth "pw" "user" "cn"
        (.ok ⟨"tx", "sn", "c2FsdA==", "1"⟩) (.ok ⟨some "tok", none⟩)
        (.ok ⟨none⟩) = (.error .noSessionId, [.start, .finish, .createSession]) :=
  ⟨(scram_protocol_error_cases_spec "pw" "user" "cn" ⟨"tx", "sn", "c2FsdA==", "garbage"⟩
      (.ok ⟨some "tok", none⟩) (.ok ⟨some "sid"⟩) ⟨some "tok", none⟩ ⟨some "sid"⟩
      0 "tok" "sid").1 rfl,
   (scram_protocol_error_cases_spec "pw" "user" "cn" ⟨"tx", "sn", "c2FsdA==", "1"⟩
      (.ok ⟨none, none⟩) (.ok ⟨some "sid"⟩) ⟨none, none⟩ ⟨some "sid"⟩
      1 "tok" "sid").2.2.1 rfl (by decide) (Or.inl rfl),
   (scram_protocol_error_cases_spec "pw" "user" "cn" ⟨"tx", "sn", "c2FsdA==", "1"⟩
      (.ok ⟨some "tok", none⟩) (.ok ⟨none⟩) ⟨some "tok", none⟩ ⟨none⟩
      1 "tok" "sid").2.2.2.1 rfl (by decide) rfl (by decide) rfl (Or.inl rfl)⟩

/-- C6: deriveProtocolKey, which feeds "Session Key", the auth message and
the client key to one streaming HMAC in three update calls, equals the
single HMAC-SHA256 keyed with the stored key over the concatenation of the
three segments in that order, and its digest is 32 bytes. -/
theorem deriveProtocolKey_spec (storedKey : List Nat) (authMsg : String)
    (clientKey : List Nat) :
    deriveProtocolKey storedKey authMsg clientKey =
      hmacSha256Bytes storedKey
        (utf8Encode "Session Key" ++ utf8Encode authMsg ++ clientKey) ∧
    (deriveProtocolKey storedKey authMsg clientKey).length = 32 := by
  constructor
  · simp [deriveProtocolKey, createHmac, HmacCtx.updateUtf8, HmacCtx.updateBytes,
      HmacCtx.digest]
  · simp [deriveProtocolKey, createHmac, HmacCtx.updateUtf8, HmacCtx.updateBytes,
      HmacCtx.digest, hmacSha256Bytes_length]

/-- C8: xorBuffers returns a buffer of length min(len(a), len(b)) whose i-th
byte is a[i] XOR b[i]; unequal lengths truncate to the shorter input (the
function is total, so no input is an error). -/
theorem xorBuffers_spec (a b : List Nat) :
    (xorBuffers a b).length = min a.length b.length ∧
    ∀ i, i < min a.length b.length →
      (xorBuffers a b).getD i 0 = Nat.xor (a.getD i 0) (b.getD i 0) := by
  constructor
  · simp [xorBuffers]
  · intro i hi
    simp [xorBuffers, List.getD_eq_getElem?_getD, List.getElem?_map,
      List.getElem?_range, hi]

/-- Witness for C8 at unequal lengths: the output has the shorter length and
the XOR of the overlapping bytes. -/
theorem xorBuffers_spec_witness :
    (xorBuffers [1, 2] [3]).length = min 2 1 ∧ 0 < min 2 1 ∧
      (xorBuffers [1, 2] [3]).getD 0 0 = Nat.xor 1 3 :=
  ⟨(xorBuffers_spec [1, 2] [3]).1, by decide,
   (xorBuffers_spec [1, 2] [3]).2 0 (by decide)⟩
